import Mathlib

/-!
# Verification of the restate-saga compensation orchestration engine

A shallow embedding of the compensation-orchestration core of the
`restate-saga` library (`src/error-registry.ts`, `src/steps.ts`,
`src/container.ts`), together with proofs of the behavioural claims made
by its specification.

Modelling conventions:

* TypeScript `undefined` is `Option.none`; a value of generic type `V`
  stands for any defined JavaScript value (inputs, outputs, compensation
  data all draw from `V`).
* A thrown JavaScript value is an `ErrVal`: its `message` field and the
  list of constructor ids appearing in its prototype chain.  The id `0`
  stands for the built-in `Error` class and the id `1` for
  `restate.TerminalError`, so `instanceof` is chain membership.
* The durable step executor (`ctx.run`) is identity on the wrapped
  action: retry/durability is outside this core.  A forward action is a
  pure function `V → RunOutcome V`, either returning a `StepResponse` or
  throwing an `ErrVal`.
* Side effects of compensation actions are external; invoking a
  registered compensation is recorded as a `CompCall` trace event
  carrying the derived run name (`"compensate:" ++ step name`), the data
  value passed, and (for hybrid steps) the `failed` context flag.
* The mutable closure cells of `steps.ts` (`compensationData`,
  `stepFailed`) are modelled, as the entry itself is only read during
  unwind, by updating the entry this step pushed (at its recorded stack
  index) whenever the source writes a cell.
-/

/-- A `restate.TerminalError` value as produced by error mappers
(only its message is observable to this core). -/
structure TerminalErr where
  message : String
deriving DecidableEq, Repr

/-- Constructor id of the built-in `Error` class. -/
def errorClassId : Nat := 0

/-- Constructor id of `restate.TerminalError` (a subclass of `Error`). -/
def terminalErrorClassId : Nat := 1

/-- A thrown JavaScript value: its `message` and the constructor ids in
its prototype chain (`instanceof C` is membership of `C`'s id). -/
structure ErrVal where
  message : String
  chain : List Nat
deriving DecidableEq, Repr

/-- `e instanceof C` for a class with constructor id `c`. -/
def ErrVal.instOf (e : ErrVal) (c : Nat) : Bool :=
  e.chain.contains c

/-- `new restate.TerminalError(msg)`: prototype chain is
`TerminalError → Error`. -/
def mkTerminalError (msg : String) : ErrVal :=
  ⟨msg, [terminalErrorClassId, errorClassId]⟩

/-- `e instanceof restate.TerminalError`, the test the workflow runners
use to decide whether to unwind. -/
def isTerminalErrorVal (e : ErrVal) : Bool :=
  e.instOf terminalErrorClassId

/-- An error mapper `(err: unknown) => TerminalError | undefined`. -/
def ErrorMapper : Type := ErrVal → Option TerminalErr

/-- `GlobalErrorConfig` from `error-registry.ts`: the registered
always-terminal error classes (their constructor ids) and the optional
global mapper.  Modelled as an explicit value rather than the module
singleton so theorems quantify over every possible configuration. -/
structure GlobalErrorConfig where
  terminalErrorClasses : List Nat
  globalMapper : Option ErrorMapper

/-- `checkGlobalTerminalError` (error-registry.ts:125):
if the error is an `Error` instance of a registered class, terminal with
the error's own message; otherwise defer to the global mapper; otherwise
undefined. -/
def checkGlobalTerminalError (cfg : GlobalErrorConfig) (err : ErrVal) :
    Option TerminalErr :=
  if err.instOf errorClassId ∧
      cfg.terminalErrorClasses.any (fun c => err.instOf c) then
    some ⟨err.message⟩
  else
    match cfg.globalMapper with
    | some m => m err
    | none => none

/-- `resolveTerminalError` (error-registry.ts:156): the step-level
mapper takes precedence when it returns a (truthy) result; otherwise
fall back to the global configuration. -/
def resolveTerminalError (cfg : GlobalErrorConfig) (err : ErrVal)
    (stepMapper : Option ErrorMapper) : Option TerminalErr :=
  match stepMapper with
  | some m =>
    match m err with
    | some result => some result
    | none => checkGlobalTerminalError cfg err
  | none => checkGlobalTerminalError cfg err

/-- `StepResponse` (steps.ts:62): `output` and `compensationData` may be
`undefined` (`none`); `failed` and `errorMessage` discriminate the
permanent-failure form. -/
structure StepResponse (V : Type) where
  output : Option V
  compensationData : Option V
  failed : Bool
  errorMessage : Option String
deriving DecidableEq, Repr

/-- `new StepResponse(output, compensationData)` (steps.ts:68). -/
def StepResponse.make {V : Type} (output compensationData : Option V) :
    StepResponse V :=
  ⟨output, compensationData, false, none⟩

/-- `StepResponse.permanentFailure(message, compensationData)`
(steps.ts:105). -/
def StepResponse.permanentFailure {V : Type} (message : String)
    (compensationData : Option V) : StepResponse V :=
  ⟨none, compensationData, true, some message⟩

/-- `response.errorMessage || "Step failed permanently"`: JavaScript
`||` falls through on `undefined` and on the empty string. -/
def terminalMessageOf (errorMessage : Option String) : String :=
  match errorMessage with
  | some m => if m = "" then "Step failed permanently" else m
  | none => "Step failed permanently"

/-- Result of one invocation of a forward action `opts.run`. -/
inductive RunOutcome (V : Type) where
  | ok (resp : StepResponse V)
  | err (e : ErrVal)

/-- The configuration record passed to `createSagaStep` /
`createSagaStepStrict` (and their container twins).  The compensation
action's body is external side effect, so only its presence is recorded;
its invocation is observed through the compensation-call trace. -/
structure SagaStepOpts (V : Type) where
  name : String
  run : V → RunOutcome V
  compensate : Bool
  asTerminalError : Option ErrorMapper

/-- A `CompensationEntry` on the compensation stack.  A hybrid entry is
the closure pushed by `createSagaStep` before execution, holding the
original `input` and the mutable cells `compensationData` (`dataCell`)
and `stepFailed` (`failed`).  A strict entry is the closure pushed by
`createSagaStepStrict` after success, holding exactly the response's
compensation data. -/
inductive CompEntry (V : Type) where
  | hybrid (name : String) (input : V) (dataCell : Option V) (failed : Bool)
  | strict (name : String) (data : Option V)
deriving DecidableEq, Repr

/-- One invocation of a compensation during unwind: the derived durable
run name, the data value handed to the compensation action, and the
`failed` context flag (hybrid entries only). -/
structure CompCall (V : Type) where
  runName : String
  data : Option V
  failedFlag : Option Bool
deriving DecidableEq, Repr

/-- Invoking a compensation entry.  A hybrid entry resolves
`compensationData !== undefined ? compensationData : input`
(steps.ts:200) and passes `{ failed: stepFailed }`; a strict entry
passes `response.compensationData` verbatim (steps.ts:335). -/
def invokeCompEntry {V : Type} : CompEntry V → CompCall V
  | .hybrid n input cell failed =>
    ⟨"compensate:" ++ n, some (cell.getD input), some failed⟩
  | .strict n data => ⟨"compensate:" ++ n, data, none⟩

/-- `createSagaStep` (steps.ts:172): the callable returned for a hybrid
step, as a function from the saga's compensation stack and the input to
the updated stack and the step's result (`Except` models a thrown
`ErrVal`).  The entry is pushed before execution (cell `none`, failed
`true`); the cells are written by replacing the entry at its recorded
index. -/
def createSagaStep {V : Type} (cfg : GlobalErrorConfig)
    (opts : SagaStepOpts V) (stack : List (CompEntry V)) (input : V) :
    List (CompEntry V) × Except ErrVal (Option V) :=
  let idx := stack.length
  let stack1 :=
    if opts.compensate then
      stack ++ [CompEntry.hybrid opts.name input none true]
    else stack
  match opts.run input with
  | .err e =>
    match resolveTerminalError cfg e opts.asTerminalError with
    | some t => (stack1, .error (mkTerminalError t.message))
    | none => (stack1, .error e)
  | .ok resp =>
    let stack2 :=
      if opts.compensate then
        stack1.set idx (CompEntry.hybrid opts.name input resp.compensationData true)
      else stack1
    if resp.failed then
      (stack2, .error (mkTerminalError (terminalMessageOf resp.errorMessage)))
    else
      let stack3 :=
        if opts.compensate then
          stack2.set idx
            (CompEntry.hybrid opts.name input resp.compensationData false)
        else stack2
      (stack3, .ok resp.output)

/-- `createSagaStepStrict` (steps.ts:284): the forward action runs
first; on any failure nothing is registered; on success an entry with
exactly the returned compensation data is pushed. -/
def createSagaStepStrict {V : Type} (cfg : GlobalErrorConfig)
    (opts : SagaStepOpts V) (stack : List (CompEntry V)) (input : V) :
    List (CompEntry V) × Except ErrVal (Option V) :=
  match opts.run input with
  | .err e =>
    match resolveTerminalError cfg e opts.asTerminalError with
    | some t => (stack, .error (mkTerminalError t.message))
    | none => (stack, .error e)
  | .ok resp =>
    if resp.failed then
      (stack, .error (mkTerminalError (terminalMessageOf resp.errorMessage)))
    else
      ((if opts.compensate then
          stack ++ [CompEntry.strict opts.name resp.compensationData]
        else stack),
        .ok resp.output)

/-- `createContainerStep` (container.ts:400): the container-aware hybrid
step.  Its compensation logic is line-for-line that of `createSagaStep`;
the only difference is that the forward and compensation actions also
receive `saga.services`, which are opaque to this model (the actions are
already abstract functions). -/
def createContainerStep {V : Type} (cfg : GlobalErrorConfig)
    (opts : SagaStepOpts V) (stack : List (CompEntry V)) (input : V) :
    List (CompEntry V) × Except ErrVal (Option V) :=
  let idx := stack.length
  let stack1 :=
    if opts.compensate then
      stack ++ [CompEntry.hybrid opts.name input none true]
    else stack
  match opts.run input with
  | .err e =>
    match resolveTerminalError cfg e opts.asTerminalError with
    | some t => (stack1, .error (mkTerminalError t.message))
    | none => (stack1, .error e)
  | .ok resp =>
    let stack2 :=
      if opts.compensate then
        stack1.set idx (CompEntry.hybrid opts.name input resp.compensationData true)
      else stack1
    if resp.failed then
      (stack2, .error (mkTerminalError (terminalMessageOf resp.errorMessage)))
    else
      let stack3 :=
        if opts.compensate then
          stack2.set idx
            (CompEntry.hybrid opts.name input resp.compensationData false)
        else stack2
      (stack3, .ok resp.output)

/-- A saga handler body, deep-embedded: a sequence of step calls (hybrid
or strict), direct throws, and a final return.  The continuation
receives the called step's output. -/
inductive SagaProg (V : Type) where
  | ret (v : Option V)
  | throwErr (e : ErrVal)
  | stepHybrid (opts : SagaStepOpts V) (input : V) (k : Option V → SagaProg V)
  | stepStrict (opts : SagaStepOpts V) (input : V) (k : Option V → SagaProg V)

/-- `await` sequencing of handler code: run `p`, feed its value to `k`;
a thrown error propagates past `k`. -/
def SagaProg.bind {V : Type} : SagaProg V → (Option V → SagaProg V) → SagaProg V
  | .ret v, k => k v
  | .throwErr e, _ => .throwErr e
  | .stepHybrid o i k1, k => .stepHybrid o i (fun v => (k1 v).bind k)
  | .stepStrict o i k1, k => .stepStrict o i (fun v => (k1 v).bind k)

/-- Executing a handler body against a compensation stack: each step
call threads the stack through `createSagaStep` / `createSagaStepStrict`
and a thrown error aborts the rest of the handler. -/
def execSagaProg {V : Type} (cfg : GlobalErrorConfig) :
    SagaProg V → List (CompEntry V) →
    List (CompEntry V) × Except ErrVal (Option V)
  | .ret v, stack => (stack, .ok v)
  | .throwErr e, stack => (stack, .error e)
  | .stepHybrid o i k, stack =>
    match createSagaStep cfg o stack i with
    | (stack', .ok v) => execSagaProg cfg (k v) stack'
    | (stack', .error e) => (stack', .error e)
  | .stepStrict o i k, stack =>
    match createSagaStepStrict cfg o stack i with
    | (stack', .ok v) => execSagaProg cfg (k v) stack'
    | (stack', .error e) => (stack', .error e)

/-- A workflow as built by `createSagaWorkflow(name, handler)`. -/
structure SagaWorkflow (V : Type) where
  name : String
  handler : V → SagaProg V

/-- `runAsStep` (container.ts:1299): run the handler with the parent's
saga context — the resulting program registers its compensations on
whatever stack it is executed against. -/
def SagaWorkflow.runAsStep {V : Type} (wf : SagaWorkflow V) (input : V) :
    SagaProg V :=
  wf.handler input

/-- The `run` handler of `createSagaWorkflow` (container.ts:1276): a
fresh empty compensation stack; on a `TerminalError` escaping the
handler, `saga.compensations.reverse()` is iterated invoking every
entry, then the error is rethrown; any other error is rethrown with the
stack untouched.  Returns (final stack contents, the trace of
compensation invocations, the handler's result). -/
def createSagaWorkflow.run {V : Type} (cfg : GlobalErrorConfig)
    (wf : SagaWorkflow V) (input : V) :
    List (CompEntry V) × List (CompCall V) × Except ErrVal (Option V) :=
  match execSagaProg cfg (wf.handler input) [] with
  | (stack, .ok v) => (stack, [], .ok v)
  | (stack, .error e) =>
    if isTerminalErrorVal e then
      (stack.reverse, stack.reverse.map invokeCompEntry, .error e)
    else
      (stack, [], .error e)

/-- A container handler body: like `SagaProg` but its step calls go
through `createContainerStep`.  (`saga.services`, resolved once from the
container cradle at invocation start, only feeds the opaque actions.) -/
inductive ContainerProg (V : Type) where
  | ret (v : Option V)
  | throwErr (e : ErrVal)
  | stepC (opts : SagaStepOpts V) (input : V) (k : Option V → ContainerProg V)

/-- `await` sequencing for container handler code. -/
def ContainerProg.bind {V : Type} :
    ContainerProg V → (Option V → ContainerProg V) → ContainerProg V
  | .ret v, k => k v
  | .throwErr e, _ => .throwErr e
  | .stepC o i k1, k => .stepC o i (fun v => (k1 v).bind k)

/-- Executing a container handler body against a compensation stack. -/
def execContainerProg {V : Type} (cfg : GlobalErrorConfig) :
    ContainerProg V → List (CompEntry V) →
    List (CompEntry V) × Except ErrVal (Option V)
  | .ret v, stack => (stack, .ok v)
  | .throwErr e, stack => (stack, .error e)
  | .stepC o i k, stack =>
    match createContainerStep cfg o stack i with
    | (stack', .ok v) => execContainerProg cfg (k v) stack'
    | (stack', .error e) => (stack', .error e)

/-- A workflow as built by `createContainerWorkflow(container, name,
handler)`. -/
structure ContainerWorkflow (V : Type) where
  name : String
  handler : V → ContainerProg V

/-- `runAsStep` (container.ts:663): run the handler with the parent's
saga context. -/
def ContainerWorkflow.runAsStep {V : Type} (wf : ContainerWorkflow V)
    (input : V) : ContainerProg V :=
  wf.handler input

/-- The `run` handler of `createContainerWorkflow` (container.ts:636):
resolve the cradle, build a fresh saga context with an empty
compensation stack, and apply the identical terminal-unwind catch logic
as `createSagaWorkflow` (container.ts:647-656). -/
def createContainerWorkflow.run {V : Type} (cfg : GlobalErrorConfig)
    (wf : ContainerWorkflow V) (input : V) :
    List (CompEntry V) × List (CompCall V) × Except ErrVal (Option V) :=
  match execContainerProg cfg (wf.handler input) [] with
  | (stack, .ok v) => (stack, [], .ok v)
  | (stack, .error e) =>
    if isTerminalErrorVal e then
      (stack.reverse, stack.reverse.map invokeCompEntry, .error e)
    else
      (stack, [], .error e)

/-- Writing the cell of the entry a step pushed: the entry sits at the
index recorded at push time (the stack length before the append). -/
theorem set_length_append {α : Type} (l : List α) (a b : α) :
    (l ++ [a]).set l.length b = l ++ [b] := by
  induction l with
  | nil => rfl
  | cons x xs ih => simp [ih]

/-- C4: `resolveTerminalError` resolves with first match winning:
(1) a step-level mapper returning a terminal result wins outright;
(2) otherwise an error that is an instance of a registered terminal
class yields a `TerminalError` with the error's own message;
(3) otherwise a set global mapper's result is returned;
(4) otherwise `undefined`, leaving the error unclassified for retry.
The hypothesis `hwf` records the TypeScript typing guarantee that every
registered class constructs `Error` instances, so an instance of a
registered class passes the `err instanceof Error` guard. -/
theorem resolveTerminalError_priority
    (cfg : GlobalErrorConfig) (err : ErrVal) (stepMapper : Option ErrorMapper)
    (hwf : cfg.terminalErrorClasses.any (fun c => err.instOf c) = true →
      err.instOf errorClassId = true) :
    (∀ m t, stepMapper = some m → m err = some t →
      resolveTerminalError cfg err stepMapper = some t) ∧
    ((stepMapper = none ∨ ∃ m, stepMapper = some m ∧ m err = none) →
      cfg.terminalErrorClasses.any (fun c => err.instOf c) = true →
      resolveTerminalError cfg err stepMapper = some ⟨err.message⟩) ∧
    ((stepMapper = none ∨ ∃ m, stepMapper = some m ∧ m err = none) →
      cfg.terminalErrorClasses.any (fun c => err.instOf c) = false →
      ∀ g, cfg.globalMapper = some g →
      resolveTerminalError cfg err stepMapper = g err) ∧
    ((stepMapper = none ∨ ∃ m, stepMapper = some m ∧ m err = none) →
      cfg.terminalErrorClasses.any (fun c => err.instOf c) = false →
      cfg.globalMapper = none →
      resolveTerminalError cfg err stepMapper = none) := by
  refine ⟨?_, ?_, ?_, ?_⟩
  · intro m t hm hmt
    subst hm
    simp [resolveTerminalError, hmt]
  · intro hmiss hany
    have hErr := hwf hany
    rcases hmiss with hn | ⟨m, hm, hmn⟩
    · subst hn
      simp [resolveTerminalError, checkGlobalTerminalError, hany, hErr]
    · subst hm
      simp [resolveTerminalError, hmn, checkGlobalTerminalError, hany, hErr]
  · intro hmiss hany g hg
    rcases hmiss with hn | ⟨m, hm, hmn⟩
    · subst hn
      simp [resolveTerminalError, checkGlobalTerminalError, hany, hg]
    · subst hm
      simp [resolveTerminalError, hmn, checkGlobalTerminalError, hany, hg]
  · intro hmiss hany hg
    rcases hmiss with hn | ⟨m, hm, hmn⟩
    · subst hn
      simp [resolveTerminalError, checkGlobalTerminalError, hany, hg]
    · subst hm
      simp [resolveTerminalError, hmn, checkGlobalTerminalError, hany, hg]

/-- C4 witness: with class id 5 registered, no global mapper and no
step mapper, an `Error` instance of class 5 is classified terminal with
its own message. -/
theorem resolveTerminalError_priority_witness :
    resolveTerminalError ⟨[5], none⟩ ⟨"boom", [5, 0]⟩ none = some ⟨"boom"⟩ :=
  (resolveTerminalError_priority ⟨[5], none⟩ ⟨"boom", [5, 0]⟩ none
    (by decide)).2.1 (Or.inl rfl) (by decide)

/-- C5: a strict step registers nothing when its forward action throws
or returns a permanent failure, and when the action succeeds it pushes
exactly one entry (when a compensation is configured, none otherwise)
carrying exactly the returned compensation data, which is what a later
unwind passes to the compensation action. -/
theorem createSagaStepStrict_registration {V : Type}
    (cfg : GlobalErrorConfig) (opts : SagaStepOpts V)
    (stack : List (CompEntry V)) (input : V) :
    (∀ e, opts.run input = .err e →
      (createSagaStepStrict cfg opts stack input).1 = stack) ∧
    (∀ resp, opts.run input = .ok resp → resp.failed = true →
      (createSagaStepStrict cfg opts stack input).1 = stack) ∧
    (∀ resp, opts.run input = .ok resp → resp.failed = false →
      opts.compensate = true →
      createSagaStepStrict cfg opts stack input =
        (stack ++ [CompEntry.strict opts.name resp.compensationData],
          .ok resp.output) ∧
      invokeCompEntry (CompEntry.strict opts.name resp.compensationData) =
        ⟨"compensate:" ++ opts.name, resp.compensationData, none⟩) ∧
    (∀ resp, opts.run input = .ok resp → resp.failed = false →
      opts.compensate = false →
      (createSagaStepStrict cfg opts stack input).1 = stack) := by
  refine ⟨?_, ?_, ?_, ?_⟩
  · intro e h
    cases h2 : resolveTerminalError cfg e opts.asTerminalError <;>
      simp [createSagaStepStrict, h, h2]
  · intro resp h hf
    simp [createSagaStepStrict, h, hf]
  · intro resp h hf hc
    exact ⟨by simp [createSagaStepStrict, h, hf, hc], rfl⟩
  · intro resp h hf hc
    simp [createSagaStepStrict, h, hf, hc]

/-- C5 witness: a succeeding strict step with a compensation pushes the
one entry with exactly the returned data. -/
theorem createSagaStepStrict_registration_witness :
    createSagaStepStrict (V := Nat) ⟨[], none⟩
      ⟨"S", fun _ => .ok (StepResponse.make (some 1) (some 10)), true, none⟩
      [] 0 =
      ([CompEntry.strict "S" (some 10)], .ok (some 1)) ∧
    invokeCompEntry (CompEntry.strict "S" (some 10 : Option Nat)) =
      ⟨"compensate:S", some 10, none⟩ :=
  (createSagaStepStrict_registration ⟨[], none⟩
      ⟨"S", fun _ => .ok (StepResponse.make (some 1) (some 10)), true, none⟩
      [] 0).2.2.1 (StepResponse.make (some 1) (some 10)) rfl rfl rfl

/-- C6: a hybrid step with a compensation whose forward action throws
leaves on the stack the entry it pushed before execution — data cell
still `undefined`, `failed` still `true` — and that entry, when invoked
during a later unwind, passes the original input and `failed = true`. -/
theorem createSagaStep_throw_fallback {V : Type}
    (cfg : GlobalErrorConfig) (opts : SagaStepOpts V)
    (stack : List (CompEntry V)) (input : V) (e : ErrVal)
    (hc : opts.compensate = true) (hr : opts.run input = .err e) :
    (createSagaStep cfg opts stack input).1 =
      stack ++ [CompEntry.hybrid opts.name input none true] ∧
    invokeCompEntry (CompEntry.hybrid opts.name input none true) =
      ⟨"compensate:" ++ opts.name, some input, some true⟩ := by
  refine ⟨?_, rfl⟩
  cases h2 : resolveTerminalError cfg e opts.asTerminalError <;>
    simp [createSagaStep, hc, hr, h2]

/-- C6 witness: a throwing hybrid step with input 7 leaves its
pre-registered entry, whose invocation passes 7 and `failed = true`. -/
theorem createSagaStep_throw_fallback_witness :
    (createSagaStep (V := Nat) ⟨[], none⟩
      ⟨"H", fun _ => .err ⟨"kaput", [0]⟩, true, none⟩ [] 7).1 =
      [CompEntry.hybrid "H" 7 none true] ∧
    invokeCompEntry (CompEntry.hybrid "H" (7 : Nat) none true) =
      ⟨"compensate:H", some 7, some true⟩ :=
  createSagaStep_throw_fallback ⟨[], none⟩
    ⟨"H", fun _ => .err ⟨"kaput", [0]⟩, true, none⟩ [] 7 ⟨"kaput", [0]⟩
    rfl rfl

/-- C9: in a hybrid step (`createSagaStep` and its container twin
`createContainerStep`), a forward action that succeeds with
`compensationData === undefined` leaves the entry's data cell
`undefined`, so a later unwind passes the original input; the
rich-versus-fallback choice is made by the `undefined` test on the
captured cell alone, not by whether the forward action completed. -/
theorem createSagaStep_undefined_data_fallback {V : Type}
    (cfg : GlobalErrorConfig) (opts : SagaStepOpts V)
    (stack : List (CompEntry V)) (input : V) (resp : StepResponse V)
    (hc : opts.compensate = true) (hr : opts.run input = .ok resp)
    (hf : resp.failed = false) (hd : resp.compensationData = none) :
    (createSagaStep cfg opts stack input =
      (stack ++ [CompEntry.hybrid opts.name input none false],
        .ok resp.output) ∧
     createContainerStep cfg opts stack input =
      (stack ++ [CompEntry.hybrid opts.name input none false],
        .ok resp.output)) ∧
    invokeCompEntry (CompEntry.hybrid opts.name input none false) =
      ⟨"compensate:" ++ opts.name, some input, some false⟩ ∧
    (∀ (n : String) (i : V) (cell : Option V) (f : Bool),
      invokeCompEntry (CompEntry.hybrid n i cell f) =
        ⟨"compensate:" ++ n, some (cell.getD i), some f⟩) := by
  refine ⟨⟨?_, ?_⟩, rfl, fun n i cell f => rfl⟩
  · simp [createSagaStep, hc, hr, hf, hd, set_length_append]
  · simp [createContainerStep, hc, hr, hf, hd, set_length_append]

/-- C9 witness: a hybrid step succeeding with `undefined` compensation
data; its entry's invocation passes the input 7. -/
theorem createSagaStep_undefined_data_fallback_witness :
    (createSagaStep (V := Nat) ⟨[], none⟩
      ⟨"U", fun _ => .ok (StepResponse.make (some 1) none), true, none⟩
      [] 7 =
      ([CompEntry.hybrid "U" 7 none false], .ok (some 1)) ∧
     createContainerStep (V := Nat) ⟨[], none⟩
      ⟨"U", fun _ => .ok (StepResponse.make (some 1) none), true, none⟩
      [] 7 =
      ([CompEntry.hybrid "U" 7 none false], .ok (some 1))) ∧
    invokeCompEntry (CompEntry.hybrid "U" (7 : Nat) none false) =
      ⟨"compensate:U", some 7, some false⟩ ∧
    (∀ (n : String) (i : Nat) (cell : Option Nat) (f : Bool),
      invokeCompEntry (CompEntry.hybrid n i cell f) =
        ⟨"compensate:" ++ n, some (cell.getD i), some f⟩) :=
  createSagaStep_undefined_data_fallback ⟨[], none⟩
    ⟨"U", fun _ => .ok (StepResponse.make (some 1) none), true, none⟩
    [] 7 (StepResponse.make (some 1) none) rfl rfl rfl rfl

/-- C10: when the forward action reports a permanent failure whose
message is the empty string or missing, both step wrappers raise a
`TerminalError` with the fixed message "Step failed permanently"
(JavaScript `||` treats the empty string as falsy). -/
theorem permanentFailure_default_message {V : Type}
    (cfg : GlobalErrorConfig) (opts : SagaStepOpts V)
    (stack : List (CompEntry V)) (input : V) (resp : StepResponse V)
    (hr : opts.run input = .ok resp) (hf : resp.failed = true)
    (hm : resp.errorMessage = some "" ∨ resp.errorMessage = none) :
    (createSagaStep cfg opts stack input).2 =
      .error (mkTerminalError "Step failed permanently") ∧
    (createSagaStepStrict cfg opts stack input).2 =
      .error (mkTerminalError "Step failed permanently") := by
  rcases hm with hm | hm <;>
    exact ⟨by simp [createSagaStep, hr, hf, hm, terminalMessageOf],
      by simp [createSagaStepStrict, hr, hf, hm, terminalMessageOf]⟩

/-- C10 witness: `StepResponse.permanentFailure("", null)` raises
"Step failed permanently" in both modes. -/
theorem permanentFailure_default_message_witness :
    (createSagaStep (V := Nat) ⟨[], none⟩
      ⟨"P", fun _ => .ok (StepResponse.permanentFailure "" none), false, none⟩
      [] 0).2 =
      .error (mkTerminalError "Step failed permanently") ∧
    (createSagaStepStrict (V := Nat) ⟨[], none⟩
      ⟨"P", fun _ => .ok (StepResponse.permanentFailure "" none), false, none⟩
      [] 0).2 =
      .error (mkTerminalError "Step failed permanently") :=
  permanentFailure_default_message ⟨[], none⟩
    ⟨"P", fun _ => .ok (StepResponse.permanentFailure "" none), false, none⟩
    [] 0 (StepResponse.permanentFailure "" none) rfl rfl (Or.inl rfl)

/-- C8 counterexample: the claim fails as stated.  A hybrid step whose
forward action returns `StepResponse.permanentFailure("", undefined)`
raises a `TerminalError` whose message is "Step failed permanently",
not the supplied (empty) failure message, and the ensuing unwind
invokes the compensation with the original input 7, not with the
supplied (`undefined`) data. -/
theorem createSagaStep_permanentFailure_counterexample :
    createSagaStep (V := Nat) ⟨[], none⟩
      ⟨"P", fun _ => .ok (StepResponse.permanentFailure "" none), true, none⟩
      [] 7 =
      ([CompEntry.hybrid "P" 7 none true],
        .error (mkTerminalError "Step failed permanently")) ∧
    mkTerminalError "Step failed permanently" ≠ mkTerminalError "" ∧
    invokeCompEntry (CompEntry.hybrid "P" (7 : Nat) none true) =
      ⟨"compensate:P", some 7, some true⟩ ∧
    (some 7 : Option Nat) ≠ none :=
  ⟨rfl, by decide, rfl, by decide⟩

/-- C8 amended: a hybrid step whose forward action returns
`StepResponse.permanentFailure(message, data)` raises a `TerminalError`
whose message is the failure message when that message is non-empty
(otherwise the fixed "Step failed permanently"), and before raising
updates the pushed entry's data cell to `data`, so an ensuing unwind
invokes the compensation with `data` when `data` is defined (otherwise
with the original input) and `failed = true`. -/
theorem createSagaStep_permanentFailure {V : Type}
    (cfg : GlobalErrorConfig) (opts : SagaStepOpts V)
    (stack : List (CompEntry V)) (input : V) (msg : String)
    (cd : Option V) (hc : opts.compensate = true)
    (hr : opts.run input = .ok (StepResponse.permanentFailure msg cd)) :
    createSagaStep cfg opts stack input =
      (stack ++ [CompEntry.hybrid opts.name input cd true],
        .error (mkTerminalError
          (if msg = "" then "Step failed permanently" else msg))) ∧
    invokeCompEntry (CompEntry.hybrid opts.name input cd true) =
      ⟨"compensate:" ++ opts.name, some (cd.getD input), some true⟩ := by
  refine ⟨?_, rfl⟩
  simp [createSagaStep, hc, hr, StepResponse.permanentFailure,
    terminalMessageOf, set_length_append]

/-- C8 witness: `permanentFailure("pay failed", 3)` raises the supplied
message and the entry's invocation passes 3 with `failed = true`. -/
theorem createSagaStep_permanentFailure_witness :
    createSagaStep (V := Nat) ⟨[], none⟩
      ⟨"P", fun _ => .ok (StepResponse.permanentFailure "pay failed" (some 3)),
        true, none⟩ [] 7 =
      ([CompEntry.hybrid "P" 7 (some 3) true],
        .error (mkTerminalError "pay failed")) ∧
    invokeCompEntry (CompEntry.hybrid "P" (7 : Nat) (some 3) true) =
      ⟨"compensate:P", some 3, some true⟩ := by
  simpa using createSagaStep_permanentFailure ⟨[], none⟩
    ⟨"P", fun _ => .ok (StepResponse.permanentFailure "pay failed" (some 3)),
      true, none⟩ [] 7 "pay failed" (some 3) rfl rfl

/-- An error configuration with nothing registered. -/
def cfgNone : GlobalErrorConfig := ⟨[], none⟩

/-- Scenario step `A`: succeeds with output 1 and compensation data 10. -/
def stepA : SagaStepOpts Nat :=
  ⟨"A", fun _ => .ok (StepResponse.make (some 1) (some 10)), true, none⟩

/-- Scenario step `B`: succeeds with output 2 and compensation data 20. -/
def stepB : SagaStepOpts Nat :=
  ⟨"B", fun _ => .ok (StepResponse.make (some 2) (some 20)), true, none⟩

/-- Scenario step `C`: fails permanently, no compensation configured. -/
def stepCFail : SagaStepOpts Nat :=
  ⟨"C", fun _ => .ok (StepResponse.permanentFailure "C failed" none),
    false, none⟩

/-- Scenario workflow: `A (comp a), B (comp b), C (fails permanently)`. -/
def wfABC : SagaWorkflow Nat :=
  ⟨"W", fun i =>
    .stepHybrid stepA i (fun _ =>
      .stepHybrid stepB 1 (fun _ =>
        .stepHybrid stepCFail 2 (fun v => .ret v)))⟩

/-- Scenario workflow: step `A` succeeds, then the handler throws a
plain (non-terminal) `Error`. -/
def wfAThrow : SagaWorkflow Nat :=
  ⟨"W", fun i => .stepHybrid stepA i (fun _ => .throwErr ⟨"oops", [0]⟩)⟩

/-- Scenario workflow: the single step `A`, then normal return. -/
def wfAOnly : SagaWorkflow Nat :=
  ⟨"W", fun i => .stepHybrid stepA i (fun v => .ret v)⟩

/-- C1: in both `createSagaWorkflow` and `createContainerWorkflow`, when
a terminal error escapes the handler of a top-level invocation the
runner invokes every compensation entry of that invocation's stack in
the exact reverse of registration order and then re-raises the very
terminal error value to the caller. -/
theorem createSagaWorkflow_terminal_unwind {V : Type}
    (cfg : GlobalErrorConfig) :
    (∀ (wf : SagaWorkflow V) (input : V) (stack : List (CompEntry V))
        (e : ErrVal),
      execSagaProg cfg (wf.handler input) [] = (stack, .error e) →
      isTerminalErrorVal e = true →
      createSagaWorkflow.run cfg wf input =
        (stack.reverse, stack.reverse.map invokeCompEntry, .error e)) ∧
    (∀ (wf : ContainerWorkflow V) (input : V) (stack : List (CompEntry V))
        (e : ErrVal),
      execContainerProg cfg (wf.handler input) [] = (stack, .error e) →
      isTerminalErrorVal e = true →
      createContainerWorkflow.run cfg wf input =
        (stack.reverse, stack.reverse.map invokeCompEntry, .error e)) := by
  constructor
  · intro wf input stack e h ht
    simp [createSagaWorkflow.run, h, ht]
  · intro wf input stack e h ht
    simp [createContainerWorkflow.run, h, ht]

/-- C1 witness: the spec's reverse-order scenario — steps `A`, `B`
succeed and register compensations, `C` fails permanently; the runner
invokes `compensate:B` strictly before `compensate:A`, then re-raises
the terminal error. -/
theorem createSagaWorkflow_terminal_unwind_witness :
    createSagaWorkflow.run cfgNone wfABC 0 =
      ([CompEntry.hybrid "B" 1 (some 20) false,
        CompEntry.hybrid "A" 0 (some 10) false],
       [⟨"compensate:B", some 20, some false⟩,
        ⟨"compensate:A", some 10, some false⟩],
       .error (mkTerminalError "C failed")) := by
  simpa using (createSagaWorkflow_terminal_unwind cfgNone).1 wfABC 0
    [CompEntry.hybrid "A" 0 (some 10) false,
     CompEntry.hybrid "B" 1 (some 20) false]
    (mkTerminalError "C failed") rfl rfl

/-- C3: in both runners, a non-terminal error escaping the handler
invokes zero compensations, is re-raised as the same error value, and
leaves the compensation stack exactly as the handler left it. -/
theorem createSagaWorkflow_nonterminal_no_unwind {V : Type}
    (cfg : GlobalErrorConfig) :
    (∀ (wf : SagaWorkflow V) (input : V) (stack : List (CompEntry V))
        (e : ErrVal),
      execSagaProg cfg (wf.handler input) [] = (stack, .error e) →
      isTerminalErrorVal e = false →
      createSagaWorkflow.run cfg wf input = (stack, [], .error e)) ∧
    (∀ (wf : ContainerWorkflow V) (input : V) (stack : List (CompEntry V))
        (e : ErrVal),
      execContainerProg cfg (wf.handler input) [] = (stack, .error e) →
      isTerminalErrorVal e = false →
      createContainerWorkflow.run cfg wf input = (stack, [], .error e)) := by
  constructor
  · intro wf input stack e h ht
    simp [createSagaWorkflow.run, h, ht]
  · intro wf input stack e h ht
    simp [createContainerWorkflow.run, h, ht]

/-- C3 witness: step `A` registers a compensation, then the handler
throws a plain `Error`; the runner re-raises it with no compensation
invoked and the stack still holding `A`'s entry. -/
theorem createSagaWorkflow_nonterminal_no_unwind_witness :
    createSagaWorkflow.run cfgNone wfAThrow 0 =
      ([CompEntry.hybrid "A" 0 (some 10) false], [],
        .error ⟨"oops", [0]⟩) :=
  (createSagaWorkflow_nonterminal_no_unwind cfgNone).1 wfAThrow 0
    [CompEntry.hybrid "A" 0 (some 10) false] ⟨"oops", [0]⟩ rfl rfl

/-- Scenario step `Order` (parent): succeeds, compensation data 11. -/
def stepOrder : SagaStepOpts Nat :=
  ⟨"Order", fun _ => .ok (StepResponse.make (some 1) (some 11)), true, none⟩

/-- Scenario step `Payment` (embedded child): succeeds, data 22. -/
def stepPayment : SagaStepOpts Nat :=
  ⟨"Payment", fun _ => .ok (StepResponse.make (some 2) (some 22)), true, none⟩

/-- Scenario step `Ship`: fails permanently, no compensation. -/
def stepShipFail : SagaStepOpts Nat :=
  ⟨"Ship", fun _ => .ok (StepResponse.permanentFailure "Ship failed" none),
    false, none⟩

/-- Child workflow whose handler runs the single step `Payment`. -/
def childPaymentWf : SagaWorkflow Nat :=
  ⟨"PaymentWorkflow", fun i => .stepHybrid stepPayment i (fun v => .ret v)⟩

/-- Parent workflow: step `Order`, then the child embedded via
`runAsStep`, then the failing step `Ship`. -/
def parentOrderWf : SagaWorkflow Nat :=
  ⟨"OrderWorkflow", fun i =>
    .stepHybrid stepOrder i (fun _ =>
      (childPaymentWf.runAsStep 1).bind (fun _ =>
        .stepHybrid stepShipFail 2 (fun v => .ret v)))⟩

/-- C2: `runAsStep` of both workflow kinds is the workflow's handler run
against the caller's saga context — executing the embedded form on any
parent stack equals executing the handler there, so no new compensation
stack exists and no unwinding happens inside the embedding; and in the
`Order` / embedded `Payment` / failing `Ship` scenario the parent's
unwind invokes `compensate:Payment` strictly before `compensate:Order`. -/
theorem runAsStep_shares_parent_context {V : Type}
    (cfg : GlobalErrorConfig) :
    (∀ (wf : SagaWorkflow V) (input : V) (stack : List (CompEntry V)),
      execSagaProg cfg (wf.runAsStep input) stack =
        execSagaProg cfg (wf.handler input) stack) ∧
    (∀ (wf : ContainerWorkflow V) (input : V) (stack : List (CompEntry V)),
      execContainerProg cfg (wf.runAsStep input) stack =
        execContainerProg cfg (wf.handler input) stack) ∧
    createSagaWorkflow.run cfgNone parentOrderWf 0 =
      ([CompEntry.hybrid "Payment" 1 (some 22) false,
        CompEntry.hybrid "Order" 0 (some 11) false],
       [⟨"compensate:Payment", some 22, some false⟩,
        ⟨"compensate:Order", some 11, some false⟩],
       .error (mkTerminalError "Ship failed")) :=
  ⟨fun _ _ _ => rfl, fun _ _ _ => rfl, rfl⟩

/-- C7 counterexample: the claim fails as stated.  A single hybrid step
with a compensation succeeds and the invocation returns normally with
zero compensation actions invoked, but the compensation stack at the end
of the invocation is not empty — it still holds the step's entry, which
is discarded without being invoked. -/
theorem noFailure_stack_nonempty_counterexample :
    createSagaWorkflow.run cfgNone wfAOnly 0 =
      ([CompEntry.hybrid "A" 0 (some 10) false], [], .ok (some 1)) ∧
    ([CompEntry.hybrid "A" 0 (some 10) false] : List (CompEntry Nat)) ≠
      [] :=
  ⟨rfl, by decide⟩

/-- C7 amended: for every execution of N ≥ 0 steps in which no error
occurs, zero compensation actions are invoked and the handler's result
is returned; the compensation stack (one entry per compensation-
configured step) is discarded without being invoked rather than being
empty. -/
theorem noFailure_zero_compensations {V : Type} (cfg : GlobalErrorConfig)
    (wf : SagaWorkflow V) (input : V) (stack : List (CompEntry V))
    (v : Option V)
    (h : execSagaProg cfg (wf.handler input) [] = (stack, .ok v)) :
    createSagaWorkflow.run cfg wf input = (stack, [], .ok v) := by
  simp [createSagaWorkflow.run, h]

/-- C7 witness: the single-successful-step workflow returns its output
with an empty compensation-invocation trace. -/
theorem noFailure_zero_compensations_witness :
    createSagaWorkflow.run cfgNone wfAOnly 0 =
      ([CompEntry.hybrid "A" 0 (some 10) false], [], .ok (some 1)) :=
  noFailure_zero_compensations cfgNone wfAOnly 0
    [CompEntry.hybrid "A" 0 (some 10) false] (some 1) rfl
